import Mathlib

/-!
# RTSP viewer: VideoWidget over libavformat/libavcodec/libswscale and Qt

A shallow embedding of `main.cpp`.  The three member functions of `VideoWidget`
(`initFFmpeg`, `cleanupFFmpeg`, `updateFrame`) and its constructor are state
transformers over the member variables.  Every library call and every line
written to `std::cerr` is recorded, in program order, in a trace of events.

What the libraries answer is not decided by the program, so it is an input:
`InitEnv` holds the answers given during `initFFmpeg` and `TickEnv` the answers
given during one run of `updateFrame`.  A pointer is an `Option`: `none` is
`nullptr`.
-/

namespace VideoViewer

/-! ## Data model -/

/-- Values of `AVMediaType`; the scan only tests for `AVMEDIA_TYPE_VIDEO`. -/
inductive AVMediaType where
  | unknown
  | video
  | audio
  | data
  | subtitle
  | attachment
  deriving DecidableEq, Repr

/-- The fields of `AVCodecParameters` that the program, or the calls it makes, read
(`streams[i]->codecpar`). -/
structure AVCodecParameters where
  codec_type : AVMediaType
  codec_id : Nat
  width : Int
  height : Int
  format : Int
  deriving DecidableEq, Repr

/-- An open `AVFormatContext`: the table `streams[0 .. nb_streams)`, each entry given by its
`codecpar`. -/
structure AVFormatContext where
  streams : List AVCodecParameters
  deriving DecidableEq, Repr

/-- An allocated `AVCodecContext`: the three fields `initFFmpeg` and `updateFrame` read, and
whether `avcodec_open2` has succeeded on it. -/
structure AVCodecContext where
  width : Int
  height : Int
  pix_fmt : Int
  isOpen : Bool
  deriving DecidableEq, Repr

/-- An allocated `AVFrame`: the decoded picture it holds, if any. -/
structure AVFrame where
  picture : Option Nat
  deriving DecidableEq, Repr

/-- A conversion context as `sws_getContext` was asked to build it (source size and format;
the destination has the same size and format `AV_PIX_FMT_RGB24`). -/
structure SwsContext where
  srcW : Int
  srcH : Int
  srcFormat : Int
  deriving DecidableEq, Repr

/-- A `QImage` of format `Format_RGB888` built over a caller-owned buffer: its size in pixels,
the distance in bytes between the starts of two scanlines as the image reads them, and the
picture whose bytes the buffer holds. -/
structure QImage where
  width : Int
  height : Int
  bytesPerLine : Int
  picture : Option Nat
  deriving DecidableEq, Repr

/-- The member variables of `VideoWidget`.  `label` is the pixmap the `QLabel` shows (the display
surface), `timer` the interval of the armed `QTimer`. -/
structure VideoWidget where
  label : Option QImage
  timer : Option Nat
  formatContext : Option AVFormatContext
  codecContext : Option AVCodecContext
  frame : Option AVFrame
  swsCtx : Option SwsContext
  videoStreamIndex : Int
  deriving DecidableEq, Repr

/-- The lines `initFFmpeg` writes to `std::cerr`. -/
inductive Diag where
  | couldNotOpenInput
  | couldNotFindStreamInfo
  | couldNotFindVideoStream
  | unsupportedCodec
  | couldNotAllocateCodecContext
  | couldNotCopyCodecContext
  | couldNotOpenCodec
  | couldNotAllocateFrame
  | couldNotInitializeSws
  deriving DecidableEq, Repr

/-- The text of each diagnostic line. -/
def Diag.text : Diag → String
  | .couldNotOpenInput => "Could not open input file.\n"
  | .couldNotFindStreamInfo => "Could not find stream information.\n"
  | .couldNotFindVideoStream => "Could not find video stream.\n"
  | .unsupportedCodec => "Unsupported codec.\n"
  | .couldNotAllocateCodecContext => "Could not allocate codec context.\n"
  | .couldNotCopyCodecContext => "Could not copy codec context.\n"
  | .couldNotOpenCodec => "Could not open codec.\n"
  | .couldNotAllocateFrame => "Could not allocate frame.\n"
  | .couldNotInitializeSws => "Could not initialize SWS context.\n"

/-- The objects the program allocates and releases. -/
inductive Obj where
  | formatContext
  | codecContext
  | frame
  | swsCtx
  | packet
  | rgbFrame
  | buffer
  deriving DecidableEq, Repr

/-- One observable action: a library call with the arguments that matter here, a line on
`std::cerr`, or (`scan_streams`) the entry into the loop over `nb_streams` streams.  For a call
that takes one of the four handles, `handle` tells whether the pointer passed was non-null. -/
inductive Event where
  | av_register_all
  | avformat_network_init
  | avformat_open_input
  | avformat_find_stream_info
  | scan_streams (nb_streams : Nat)
  | avcodec_find_decoder (codec_id : Nat)
  | avcodec_alloc_context3
  | avcodec_parameters_to_context
  | avcodec_open2
  | av_frame_alloc (target : Obj)
  | sws_getContext (w h fmt : Int)
  | cerr (line : Diag)
  | timer_start (msec : Nat)
  | av_init_packet
  | av_read_frame (handle : Bool)
  | avcodec_send_packet (handle : Bool)
  | avcodec_receive_frame (handle : Bool) (frameHandle : Bool)
  | avpicture_get_size (w h : Int)
  | av_malloc (numBytes : Int)
  | avpicture_fill (w h : Int)
  | sws_scale (handle : Bool) (srcSliceH : Int) (dstStride : Int)
  | setPixmap (img : QImage)
  | av_free (target : Obj)
  | av_frame_free (target : Obj)
  | av_packet_unref
  | avcodec_free_context
  | avformat_close_input
  | sws_freeContext
  deriving DecidableEq, Repr

/-- Why a run stopped without returning: the program handed a null handle to a call that
dereferences it, or indexed the stream table outside its bounds.  C gives no meaning to what
follows, so the run ends at that point. -/
inductive Fault where
  | nullHandle
  | badStreamIndex
  deriving DecidableEq, Repr

/-- What a member function did: the member variables afterwards, the events in order, and the
fault if it did not return. -/
structure Outcome where
  state : VideoWidget
  trace : List Event
  fault : Option Fault
  deriving DecidableEq, Repr

/-- The answers of libavformat, libavcodec and libswscale during `initFFmpeg`. -/
structure InitEnv where
  open_input : Int
  find_stream_info : Int
  streams : List AVCodecParameters
  find_decoder : Nat → Bool
  alloc_context3 : Bool
  parameters_to_context : Int
  open2 : Int
  frame_alloc : Bool
  sws_getContext : Bool

/-- The answers of the libraries during one run of `updateFrame`: the return values of
`av_read_frame`, `avcodec_send_packet` and `avcodec_receive_frame`, the `stream_index` of the
packet read, and the picture a successful receive stores into `frame`. -/
structure TickEnv where
  read_frame : Int
  stream_index : Int
  send_packet : Int
  receive_frame : Int
  picture : Nat
  deriving DecidableEq, Repr

/-! ## Machine integers and library conventions -/

/-- Largest value of a C `int`. -/
def INT_MAX : Nat := 2147483647

/-- The conversion `videoStreamIndex = i` from `unsigned int` to `int`: values above `INT_MAX`
wrap around modulo `2^32`. -/
def intOfUnsigned (u : Nat) : Int :=
  if u % 4294967296 < 2147483648 then ((u % 4294967296 : Nat) : Int)
  else ((u % 4294967296 : Nat) : Int) - 4294967296

/-- `linesize[0]` that `avpicture_fill` sets for `AV_PIX_FMT_RGB24` (alignment 1): three bytes
per pixel and nothing else. -/
def rgb24Linesize (w : Int) : Int := 3 * w

/-- `avpicture_get_size(AV_PIX_FMT_RGB24, w, h)` for a positive size: `h` rows of
`rgb24Linesize w` bytes. -/
def avpicture_get_size (w h : Int) : Int := rgb24Linesize w * h

/-- Scanline length of `QImage(uchar* data, int width, int height, Format_RGB888)`.  This
constructor takes no stride: Qt requires each scanline of `data` to be 32-bit aligned, and reads
rows `((width * 24 + 31) / 32) * 4` bytes apart. -/
def qimageBytesPerLine (w : Int) : Int := ((w * 24 + 31) / 32) * 4

/-- The image `QImage img(data, w, h, QImage::Format_RGB888)` over a buffer holding `picture`. -/
def QImage.ofBuffer (picture : Option Nat) (w h : Int) : QImage :=
  { width := w, height := h, bytesPerLine := qimageBytesPerLine w, picture := picture }

/-- One past the last byte offset of row `r` as the conversion writes it into the buffer. -/
def writtenRowEnd (w : Int) (r : Int) : Int := r * rgb24Linesize w + 3 * w

/-- One past the last byte offset of row `r` as the image reads it from the buffer. -/
def QImage.rowEnd (img : QImage) (r : Int) : Int := r * img.bytesPerLine + 3 * img.width

/-! ## The constructor's initial values -/

/-- Member initialisers of the constructor: every handle null, `videoStreamIndex(-1)`, an empty
label. -/
def VideoWidget.initial : VideoWidget :=
  { label := none, timer := none, formatContext := none, codecContext := none,
    frame := none, swsCtx := none, videoStreamIndex := -1 }

/-! ## initFFmpeg -/

/-- The loop `for (unsigned int i = ...; i < nb_streams; i++)` from index `i` on, over the
entries `streams[i], streams[i+1], ...`: the first entry of type video assigns
`videoStreamIndex = i` and breaks; otherwise `videoStreamIndex` keeps its value. -/
def scanStreams : List AVCodecParameters → Nat → Int → Int
  | [], _, videoStreamIndex => videoStreamIndex
  | p :: rest, i, videoStreamIndex =>
    if p.codec_type = AVMediaType.video then intOfUnsigned i
    else scanStreams rest (i + 1) videoStreamIndex

/-- The access `formatContext->streams[videoStreamIndex]->codecpar`; `none` when the index is
outside the table. -/
def codecparAt (streams : List AVCodecParameters) (videoStreamIndex : Int) :
    Option AVCodecParameters :=
  if videoStreamIndex < 0 then none else streams[videoStreamIndex.toNat]?

/-- `VideoWidget::initFFmpeg`. -/
def initFFmpeg (s : VideoWidget) (e : InitEnv) : Outcome :=
  let t0 := [Event.av_register_all, .avformat_network_init, .avformat_open_input]
  if e.open_input ≠ 0 then
    ⟨{ s with formatContext := none }, t0 ++ [.cerr .couldNotOpenInput], none⟩
  else
    let fc : AVFormatContext := ⟨e.streams⟩
    let s1 := { s with formatContext := some fc }
    let t1 := t0 ++ [.avformat_find_stream_info]
    if e.find_stream_info < 0 then
      ⟨s1, t1 ++ [.cerr .couldNotFindStreamInfo], none⟩
    else
      let s2 := { s1 with
        videoStreamIndex := scanStreams fc.streams 0 s1.videoStreamIndex }
      let t2 := t1 ++ [.scan_streams fc.streams.length]
      if s2.videoStreamIndex = -1 then
        ⟨s2, t2 ++ [.cerr .couldNotFindVideoStream], none⟩
      else
        match codecparAt fc.streams s2.videoStreamIndex with
        | none => ⟨s2, t2, some .badStreamIndex⟩
        | some codecParams =>
          let t3 := t2 ++ [.avcodec_find_decoder codecParams.codec_id]
          if ¬ e.find_decoder codecParams.codec_id then
            ⟨s2, t3 ++ [.cerr .unsupportedCodec], none⟩
          else
            let t4 := t3 ++ [.avcodec_alloc_context3]
            if ¬ e.alloc_context3 then
              ⟨{ s2 with codecContext := none },
                t4 ++ [.cerr .couldNotAllocateCodecContext], none⟩
            else
              let t5 := t4 ++ [.avcodec_parameters_to_context]
              if e.parameters_to_context < 0 then
                ⟨{ s2 with codecContext := some ⟨0, 0, -1, false⟩ },
                  t5 ++ [.cerr .couldNotCopyCodecContext], none⟩
              else
                let cc : AVCodecContext :=
                  ⟨codecParams.width, codecParams.height, codecParams.format, false⟩
                let t6 := t5 ++ [.avcodec_open2]
                if e.open2 < 0 then
                  ⟨{ s2 with codecContext := some cc },
                    t6 ++ [.cerr .couldNotOpenCodec], none⟩
                else
                  let cc1 := { cc with isOpen := true }
                  let s3 := { s2 with codecContext := some cc1 }
                  let t7 := t6 ++ [.av_frame_alloc .frame]
                  if ¬ e.frame_alloc then
                    ⟨{ s3 with frame := none }, t7 ++ [.cerr .couldNotAllocateFrame], none⟩
                  else
                    let s4 := { s3 with frame := some ⟨none⟩ }
                    let t8 := t7 ++ [.sws_getContext cc1.width cc1.height cc1.pix_fmt]
                    if ¬ e.sws_getContext then
                      ⟨{ s4 with swsCtx := none }, t8 ++ [.cerr .couldNotInitializeSws], none⟩
                    else
                      ⟨{ s4 with swsCtx := some ⟨cc1.width, cc1.height, cc1.pix_fmt⟩ }, t8, none⟩

/-- `VideoWidget::VideoWidget`: the member initialisers, `initFFmpeg`, and then, whatever
`initFFmpeg` did, a timer armed at 30 ms that runs `updateFrame`. -/
def VideoWidget.construct (e : InitEnv) : Outcome :=
  let r := initFFmpeg VideoWidget.initial e
  match r.fault with
  | some f => ⟨r.state, r.trace, some f⟩
  | none => ⟨{ r.state with timer := some 30 }, r.trace ++ [.timer_start 30], none⟩

/-! ## cleanupFFmpeg -/

/-- `VideoWidget::cleanupFFmpeg`: four guarded releases.  The first three take the address of
the member and null it; `sws_freeContext` takes the pointer by value, so `swsCtx` keeps its
value. -/
def cleanupFFmpeg (s : VideoWidget) : Outcome :=
  let t1 := if s.frame.isSome then [Event.av_frame_free .frame] else []
  let t2 := if s.codecContext.isSome then t1 ++ [Event.avcodec_free_context] else t1
  let t3 := if s.formatContext.isSome then t2 ++ [Event.avformat_close_input] else t2
  let t4 := if s.swsCtx.isSome then t3 ++ [Event.sws_freeContext] else t3
  ⟨{ s with frame := none, codecContext := none, formatContext := none }, t4, none⟩

/-! ## updateFrame -/

/-- `VideoWidget::updateFrame`, one timer tick.  `av_read_frame`, `avcodec_send_packet`,
`avcodec_receive_frame` and `sws_scale` dereference the handle they are given; the run ends in a
fault when that handle is null.  The two allocations inside the tick (`av_frame_alloc`,
`av_malloc`) are taken to succeed: the source does not test them. -/
def updateFrame (s : VideoWidget) (e : TickEnv) : Outcome :=
  let t0 := [Event.av_init_packet]
  match s.formatContext with
  | none => ⟨s, t0 ++ [.av_read_frame false], some .nullHandle⟩
  | some _ =>
    let t1 := t0 ++ [.av_read_frame true]
    if 0 ≤ e.read_frame then
      if e.stream_index = s.videoStreamIndex then
        match s.codecContext with
        | none => ⟨s, t1 ++ [.avcodec_send_packet false], some .nullHandle⟩
        | some cc =>
          let t2 := t1 ++ [.avcodec_send_packet true]
          if 0 ≤ e.send_packet then
            match s.frame with
            | none => ⟨s, t2 ++ [.avcodec_receive_frame true false], some .nullHandle⟩
            | some _ =>
              let t3 := t2 ++ [.avcodec_receive_frame true true]
              if 0 ≤ e.receive_frame then
                let s1 := { s with frame := some ⟨some e.picture⟩ }
                let numBytes := avpicture_get_size cc.width cc.height
                let t4 := t3 ++ [.av_frame_alloc .rgbFrame,
                  .avpicture_get_size cc.width cc.height, .av_malloc numBytes,
                  .avpicture_fill cc.width cc.height]
                let linesize := rgb24Linesize cc.width
                match s.swsCtx with
                | none => ⟨s1, t4 ++ [.sws_scale false cc.height linesize], some .nullHandle⟩
                | some _ =>
                  let img := QImage.ofBuffer (some e.picture) cc.width cc.height
                  ⟨{ s1 with label := some img },
                    t4 ++ [.sws_scale true cc.height linesize, .setPixmap img,
                      .av_free .buffer, .av_frame_free .rgbFrame, .av_packet_unref], none⟩
              else
                ⟨{ s with frame := some ⟨none⟩ }, t3 ++ [.av_packet_unref], none⟩
          else
            ⟨s, t2 ++ [.av_packet_unref], none⟩
      else
        ⟨s, t1 ++ [.av_packet_unref], none⟩
    else
      ⟨s, t1, none⟩

/-- The timer firing once per element of the list, `updateFrame` running to completion each time
(`connect(timer, &QTimer::timeout, this, &VideoWidget::updateFrame)`).  A tick that faults ends
the run. -/
def runTicks (s : VideoWidget) : List TickEnv → Outcome
  | [] => ⟨s, [], none⟩
  | e :: es =>
    match (updateFrame s e).fault with
    | some f => ⟨(updateFrame s e).state, (updateFrame s e).trace, some f⟩
    | none =>
      let r := runTicks (updateFrame s e).state es
      ⟨r.state, (updateFrame s e).trace ++ r.trace, r.fault⟩

/-! ## Observations on states and traces -/

/-- Running: every handle `initFFmpeg` sets is non-null. -/
def VideoWidget.running (s : VideoWidget) : Bool :=
  s.formatContext.isSome && s.codecContext.isSome && s.frame.isSome && s.swsCtx.isSome

/-- The lines written to `std::cerr`, in order. -/
def logged (t : List Event) : List Diag :=
  t.filterMap fun ev => match ev with
    | .cerr d => some d
    | _ => none

/-- The images handed to `label->setPixmap`, in order. -/
def presented (t : List Event) : List QImage :=
  t.filterMap fun ev => match ev with
    | .setPixmap img => some img
    | _ => none

/-- Calls of `updateFrame` that take the decoding context, or a value read from it
(`codecContext->width`, `codecContext->height`): submission, receive, and the sizing and
conversion of the RGB picture. -/
def Event.usesDecoder : Event → Bool
  | .avcodec_send_packet _ => true
  | .avcodec_receive_frame _ _ => true
  | .avpicture_get_size _ _ => true
  | .avpicture_fill _ _ => true
  | .sws_scale _ _ _ => true
  | _ => false

/-- A library call that was handed a null handle it requires to be non-null. -/
def Event.passesNull : Event → Bool
  | .av_read_frame h => !h
  | .avcodec_send_packet h => !h
  | .avcodec_receive_frame h f => !h || !f
  | .sws_scale h _ _ => !h
  | _ => false

/-- The object an event allocates inside a tick, if any. -/
def Event.allocates : Event → Option Obj
  | .av_frame_alloc o => some o
  | .av_malloc _ => some .buffer
  | _ => none

/-- The object an event frees, if any. -/
def Event.frees : Event → Option Obj
  | .av_free o => some o
  | .av_frame_free o => some o
  | .av_packet_unref => some .packet
  | .avcodec_free_context => some .codecContext
  | .avformat_close_input => some .formatContext
  | .sws_freeContext => some .swsCtx
  | _ => none

/-- Number of events of a trace that allocate object `o`. -/
def allocCount (t : List Event) (o : Obj) : Nat :=
  (t.filter fun ev => ev.allocates = some o).length

/-- Number of events of a trace that free object `o`. -/
def freeCount (t : List Event) (o : Obj) : Nat :=
  (t.filter fun ev => ev.frees = some o).length

/-- Allocations of the RGB frame wrapper and of the RGB buffer still live at the end of a trace:
allocations minus frees, counted along the trace. -/
def liveAllocations (t : List Event) : Int :=
  ((allocCount t .rgbFrame : Nat) : Int) - (freeCount t .rgbFrame : Nat)
    + ((allocCount t .buffer : Nat) : Int) - (freeCount t .buffer : Nat)

/-- The objects released along a trace, in the order of the release calls. -/
def releases (t : List Event) : List Obj :=
  t.filterMap Event.frees

/-! ## The initialization steps, as the specification lists them -/

/-- The steps of the initialization sequence that can fail. -/
inductive InitStep where
  | openStream
  | probe
  | selectVideo
  | findDecoder
  | allocContext
  | copyParameters
  | openCodec
  | allocPicture
  | createConversion
  deriving DecidableEq, Repr

/-- The steps in the order of the sequence. -/
def InitStep.all : List InitStep :=
  [.openStream, .probe, .selectVideo, .findDecoder, .allocContext, .copyParameters,
   .openCodec, .allocPicture, .createConversion]

/-- Position of a step in the sequence. -/
def InitStep.index : InitStep → Nat
  | .openStream => 0
  | .probe => 1
  | .selectVideo => 2
  | .findDecoder => 3
  | .allocContext => 4
  | .copyParameters => 5
  | .openCodec => 6
  | .allocPicture => 7
  | .createConversion => 8

/-- The line a failing step is expected to log. -/
def InitStep.diag : InitStep → Diag
  | .openStream => .couldNotOpenInput
  | .probe => .couldNotFindStreamInfo
  | .selectVideo => .couldNotFindVideoStream
  | .findDecoder => .unsupportedCodec
  | .allocContext => .couldNotAllocateCodecContext
  | .copyParameters => .couldNotCopyCodecContext
  | .openCodec => .couldNotOpenCodec
  | .allocPicture => .couldNotAllocateFrame
  | .createConversion => .couldNotInitializeSws

/-- The step an event of `initFFmpeg` belongs to. -/
def InitStep.ofEvent : Event → Option InitStep
  | .avformat_open_input => some .openStream
  | .avformat_find_stream_info => some .probe
  | .scan_streams _ => some .selectVideo
  | .avcodec_find_decoder _ => some .findDecoder
  | .avcodec_alloc_context3 => some .allocContext
  | .avcodec_parameters_to_context => some .copyParameters
  | .avcodec_open2 => some .openCodec
  | .av_frame_alloc .frame => some .allocPicture
  | .sws_getContext _ _ _ => some .createConversion
  | _ => none

/-- The steps a trace shows as executed, in order. -/
def executedSteps (t : List Event) : List InitStep :=
  t.filterMap InitStep.ofEvent

/-- Whether a step fails under the given library answers, read off the answers alone: a
non-zero open result, a negative probe result, no stream of type video, no decoder for the
codec of the first video stream, a null or negative result of the later calls. -/
def stepFails (e : InitEnv) : InitStep → Bool
  | .openStream => e.open_input ≠ 0
  | .probe => e.find_stream_info < 0
  | .selectVideo => e.streams.all fun p => p.codec_type ≠ AVMediaType.video
  | .findDecoder =>
    match e.streams.find? fun p => p.codec_type = AVMediaType.video with
    | some p => !e.find_decoder p.codec_id
    | none => false
  | .allocContext => !e.alloc_context3
  | .copyParameters => e.parameters_to_context < 0
  | .openCodec => e.open2 < 0
  | .allocPicture => !e.frame_alloc
  | .createConversion => !e.sws_getContext

/-- The first step of the sequence that fails, if any does. -/
def firstFailure (e : InitEnv) : Option InitStep :=
  InitStep.all.find? (stepFails e)

/-! ## Concrete inputs -/

/-- Library answers under which every step of `initFFmpeg` succeeds, over a container with an
audio stream and a 854x480 video stream. -/
def envAllSucceed : InitEnv :=
  { open_input := 0, find_stream_info := 0,
    streams := [⟨AVMediaType.audio, 86018, 0, 0, 8⟩, ⟨AVMediaType.video, 27, 854, 480, 0⟩],
    find_decoder := fun _ => true, alloc_context3 := true, parameters_to_context := 0,
    open2 := 0, frame_alloc := true, sws_getContext := true }

/-- The camera cannot be reached: `avformat_open_input` returns `AVERROR(EIO)`. -/
def envOpenFails : InitEnv := { envAllSucceed with open_input := -5 }

/-- The container carries a single audio stream. -/
def envNoVideo : InitEnv :=
  { envAllSucceed with streams := [⟨AVMediaType.audio, 86018, 0, 0, 8⟩] }

/-- No decoder is registered for the codec of the video stream. -/
def envNoDecoder : InitEnv := { envAllSucceed with find_decoder := fun _ => false }

/-- The decoder cannot be opened: `avcodec_open2` returns `AVERROR(EINVAL)`. -/
def envOpenCodecFails : InitEnv := { envAllSucceed with open2 := -22 }

/-- The decoded-picture buffer cannot be allocated. -/
def envNoFrame : InitEnv := { envAllSucceed with frame_alloc := false }

/-- The conversion context cannot be created. -/
def envNoSws : InitEnv := { envAllSucceed with sws_getContext := false }

/-- A tick that reads a packet of stream 1, which the decoder accepts and turns into
picture 7. -/
def tickPicture : TickEnv :=
  { read_frame := 0, stream_index := 1, send_packet := 0, receive_frame := 0, picture := 7 }

/-- A tick that reads a packet of stream 0. -/
def tickAudio : TickEnv :=
  { read_frame := 0, stream_index := 0, send_packet := 0, receive_frame := 0, picture := 0 }

/-- A tick whose read fails with `AVERROR_EOF`. -/
def tickEof : TickEnv :=
  { read_frame := -541478725, stream_index := 0, send_packet := 0, receive_frame := 0,
    picture := 0 }

/-! ## Shared lemmas -/

/-- An index that fits a C `int` is not changed by the conversion. -/
theorem intOfUnsigned_of_le (n : Nat) (h : n ≤ INT_MAX) : intOfUnsigned n = (n : Int) := by
  unfold INT_MAX at h
  unfold intOfUnsigned
  have h1 : n % 4294967296 = n := Nat.mod_eq_of_lt (by omega)
  rw [h1, if_pos (by omega)]

/-- Over entries none of which is video the loop leaves `videoStreamIndex` alone. -/
theorem scanStreams_no_video (l : List AVCodecParameters) (i : Nat) (v : Int)
    (h : ∀ p ∈ l, p.codec_type ≠ AVMediaType.video) : scanStreams l i v = v := by
  induction l generalizing i with
  | nil => rfl
  | cons p rest ih =>
    have hp : p.codec_type ≠ AVMediaType.video := h p (List.mem_cons_self _ _)
    have hr : ∀ q ∈ rest, q.codec_type ≠ AVMediaType.video :=
      fun q hq => h q (List.mem_cons_of_mem _ hq)
    simp [scanStreams, hp, ih (i + 1) hr]

/-- The loop stops at the first video entry and assigns its index. -/
theorem scanStreams_first (pre : List AVCodecParameters) (p : AVCodecParameters)
    (post : List AVCodecParameters) (i : Nat) (v : Int)
    (hpre : ∀ q ∈ pre, q.codec_type ≠ AVMediaType.video)
    (hp : p.codec_type = AVMediaType.video) :
    scanStreams (pre ++ p :: post) i v = intOfUnsigned (i + pre.length) := by
  induction pre generalizing i with
  | nil => simp [scanStreams, hp]
  | cons q rest ih =>
    have hq : q.codec_type ≠ AVMediaType.video := hpre q (List.mem_cons_self _ _)
    have hr : ∀ x ∈ rest, x.codec_type ≠ AVMediaType.video :=
      fun x hx => hpre x (List.mem_cons_of_mem _ hx)
    simp [scanStreams, hq, ih (i + 1) hr]
    congr 1
    omega

/-- A stream table either has no video entry or splits at its first video entry. -/
theorem streams_split (l : List AVCodecParameters) :
    (∀ p ∈ l, p.codec_type ≠ AVMediaType.video) ∨
    ∃ pre p post, l = pre ++ p :: post ∧ (∀ q ∈ pre, q.codec_type ≠ AVMediaType.video) ∧
      p.codec_type = AVMediaType.video := by
  induction l with
  | nil => left; simp
  | cons a rest ih =>
    by_cases ha : a.codec_type = AVMediaType.video
    · right; exact ⟨[], a, rest, rfl, by simp, ha⟩
    · rcases ih with h | ⟨pre, p, post, hl, hpre, hp⟩
      · left
        intro q hq
        rcases List.mem_cons.mp hq with rfl | hq
        · exact ha
        · exact h q hq
      · right
        refine ⟨a :: pre, p, post, by simp [hl], ?_, hp⟩
        intro q hq
        rcases List.mem_cons.mp hq with rfl | hq
        · exact ha
        · exact hpre q hq

/-- Once open and probe have succeeded, `videoStreamIndex` at return is what the loop left. -/
theorem initFFmpeg_videoStreamIndex (e : InitEnv) (hopen : e.open_input = 0)
    (hprobe : 0 ≤ e.find_stream_info) :
    (initFFmpeg VideoWidget.initial e).state.videoStreamIndex = scanStreams e.streams 0 (-1) := by
  have hp : ¬ e.find_stream_info < 0 := not_lt.mpr hprobe
  simp only [initFFmpeg, hopen, hp, VideoWidget.initial]
  simp only [ne_eq, not_true_eq_false, if_false]
  repeat' split
  all_goals rfl

/-- The five shapes of the trace of a tick that returns. -/
theorem updateFrame_trace_shape (s : VideoWidget) (e : TickEnv)
    (h : (updateFrame s e).fault = none) :
    (e.read_frame < 0 ∧
      (updateFrame s e).trace = [.av_init_packet, .av_read_frame true]) ∨
    (0 ≤ e.read_frame ∧
      (updateFrame s e).trace = [.av_init_packet, .av_read_frame true, .av_packet_unref]) ∨
    (0 ≤ e.read_frame ∧
      (updateFrame s e).trace = [.av_init_packet, .av_read_frame true,
        .avcodec_send_packet true, .av_packet_unref]) ∨
    (0 ≤ e.read_frame ∧
      (updateFrame s e).trace = [.av_init_packet, .av_read_frame true,
        .avcodec_send_packet true, .avcodec_receive_frame true true, .av_packet_unref]) ∨
    (0 ≤ e.read_frame ∧ ∃ cc : AVCodecContext, s.codecContext = some cc ∧
      (updateFrame s e).trace = [.av_init_packet, .av_read_frame true,
        .avcodec_send_packet true, .avcodec_receive_frame true true,
        .av_frame_alloc .rgbFrame, .avpicture_get_size cc.width cc.height,
        .av_malloc (avpicture_get_size cc.width cc.height),
        .avpicture_fill cc.width cc.height,
        .sws_scale true cc.height (rgb24Linesize cc.width),
        .setPixmap (QImage.ofBuffer (some e.picture) cc.width cc.height),
        .av_free .buffer, .av_frame_free .rgbFrame, .av_packet_unref]) := by
  revert h
  unfold updateFrame
  repeat' split
  all_goals simp_all

/-- A tick of a running viewer hands no null handle to a library call, so it returns. -/
theorem updateFrame_running_returns (s : VideoWidget) (e : TickEnv)
    (hrun : s.running = true) : (updateFrame s e).fault = none := by
  unfold VideoWidget.running at hrun
  unfold updateFrame
  cases hf : s.formatContext <;> cases hc : s.codecContext <;> cases hfr : s.frame <;>
    cases hsw : s.swsCtx <;> simp [hf, hc, hfr, hsw] at hrun ⊢
  repeat' split
  all_goals rfl

/-- What `initFFmpeg` does when open and probe succeed and no stream is video. -/
theorem initFFmpeg_no_video (e : InitEnv) (hopen : e.open_input = 0)
    (hprobe : 0 ≤ e.find_stream_info)
    (hnov : ∀ p ∈ e.streams, p.codec_type ≠ AVMediaType.video) :
    initFFmpeg VideoWidget.initial e =
      ⟨{ VideoWidget.initial with formatContext := some ⟨e.streams⟩ },
        [.av_register_all, .avformat_network_init, .avformat_open_input,
          .avformat_find_stream_info, .scan_streams e.streams.length,
          .cerr .couldNotFindVideoStream], none⟩ := by
  have hp : ¬ e.find_stream_info < 0 := not_lt.mpr hprobe
  have hs : scanStreams e.streams 0 (-1) = -1 := scanStreams_no_video _ _ _ hnov
  simp [initFFmpeg, hopen, hp, VideoWidget.initial, hs]

/-- One tick of a viewer with an open stream and no selected video stream. -/
theorem updateFrame_unselected (s : VideoWidget) (e : TickEnv) (fc : AVFormatContext)
    (hfc : s.formatContext = some fc) (hv : s.videoStreamIndex = -1)
    (hidx : 0 ≤ e.stream_index) :
    updateFrame s e = ⟨s, [.av_init_packet, .av_read_frame true], none⟩ ∨
    updateFrame s e = ⟨s, [.av_init_packet, .av_read_frame true, .av_packet_unref], none⟩ := by
  have hne : e.stream_index ≠ -1 := by omega
  unfold updateFrame
  by_cases h1 : 0 ≤ e.read_frame <;> simp [hfc, hv, h1, hne]

/-- Any number of ticks of a viewer with an open stream and no selected video stream. -/
theorem runTicks_unselected (s : VideoWidget) (ticks : List TickEnv) (fc : AVFormatContext)
    (hfc : s.formatContext = some fc) (hv : s.videoStreamIndex = -1)
    (hidx : ∀ t ∈ ticks, 0 ≤ t.stream_index) :
    (runTicks s ticks).fault = none ∧ (runTicks s ticks).state = s ∧
    ∀ ev ∈ (runTicks s ticks).trace,
      ev = .av_init_packet ∨ ev = .av_read_frame true ∨ ev = .av_packet_unref := by
  induction ticks with
  | nil => simp [runTicks]
  | cons t rest ih =>
    have ht : 0 ≤ t.stream_index := hidx t (List.mem_cons_self _ _)
    have hrest := ih (fun x hx => hidx x (List.mem_cons_of_mem _ hx))
    rcases updateFrame_unselected s t fc hfc hv ht with h | h
    · simp only [runTicks, h]
      refine ⟨hrest.1, hrest.2.1, ?_⟩
      intro ev hev
      rcases List.mem_append.mp hev with hm | hm
      · simp at hm
        rcases hm with hm | hm <;> simp [hm]
      · exact hrest.2.2 ev hm
    · simp only [runTicks, h]
      refine ⟨hrest.1, hrest.2.1, ?_⟩
      intro ev hev
      rcases List.mem_append.mp hev with hm | hm
      · simp at hm
        rcases hm with hm | hm | hm <;> simp [hm]
      · exact hrest.2.2 ev hm

/-- The scan against the specification of the selection step: either no stream is video and the
index stays -1, or the index is that of the first video stream, whose parameters the later
steps read. -/
theorem scanStreams_select (l : List AVCodecParameters) (hlen : l.length ≤ INT_MAX) :
    ((l.all fun p => p.codec_type ≠ AVMediaType.video) = true ∧
      scanStreams l 0 (-1) = -1) ∨
    ∃ (n : Nat) (p : AVCodecParameters),
      (l.all fun p => p.codec_type ≠ AVMediaType.video) = false ∧
      (l.find? fun p => p.codec_type = AVMediaType.video) = some p ∧
      scanStreams l 0 (-1) = (n : Int) ∧ codecparAt l (n : Int) = some p := by
  rcases streams_split l with hno | ⟨pre, p, post, hl, hpre, hp⟩
  · left
    refine ⟨?_, scanStreams_no_video _ _ _ hno⟩
    rw [List.all_eq_true]
    intro q hq
    simpa using hno q hq
  · right
    have hlt : pre.length ≤ INT_MAX := by
      have : l.length = pre.length + (post.length + 1) := by simp [hl]
      omega
    refine ⟨pre.length, p, ?_, ?_, ?_, ?_⟩
    · rw [List.all_eq_false]
      exact ⟨p, by simp [hl], by simp [hp]⟩
    · rw [hl, List.find?_append]
      have : (pre.find? fun p => p.codec_type = AVMediaType.video) = none := by
        rw [List.find?_eq_none]
        intro q hq
        simpa using hpre q hq
      simp [this, hp]
    · rw [hl, scanStreams_first pre p post 0 (-1) hpre hp, Nat.zero_add,
        intOfUnsigned_of_le _ hlt]
    · unfold codecparAt
      rw [if_neg (by omega), Int.toNat_ofNat, hl,
        List.getElem?_append_right (Nat.le_refl _)]
      simp

/-! ## The claims -/

/-- C1. After a successful open and probe, over a stream table that fits a C `int` index,
`videoStreamIndex` is the smallest index whose codec type is video, and it is still -1 exactly
when no stream of the table is video. -/
theorem initFFmpeg_selects_first_video (e : InitEnv)
    (hopen : e.open_input = 0) (hprobe : 0 ≤ e.find_stream_info)
    (hlen : e.streams.length ≤ INT_MAX) :
    (∀ (i : Nat) (p : AVCodecParameters), e.streams[i]? = some p →
        p.codec_type = AVMediaType.video →
        (∀ (j : Nat) (q : AVCodecParameters), j < i → e.streams[j]? = some q →
          q.codec_type ≠ AVMediaType.video) →
        (initFFmpeg VideoWidget.initial e).state.videoStreamIndex = (i : Int)) ∧
    ((∃ p ∈ e.streams, p.codec_type = AVMediaType.video) →
        ∃ (i : Nat) (p : AVCodecParameters),
          (initFFmpeg VideoWidget.initial e).state.videoStreamIndex = (i : Int) ∧
          e.streams[i]? = some p ∧ p.codec_type = AVMediaType.video ∧
          ∀ (j : Nat) (q : AVCodecParameters), j < i → e.streams[j]? = some q →
            q.codec_type ≠ AVMediaType.video) ∧
    ((initFFmpeg VideoWidget.initial e).state.videoStreamIndex = -1 ↔
        ∀ p ∈ e.streams, p.codec_type ≠ AVMediaType.video) := by
  rw [initFFmpeg_videoStreamIndex e hopen hprobe]
  rcases streams_split e.streams with hno | ⟨pre, p, post, hl, hpre, hp⟩
  · rw [scanStreams_no_video _ _ _ hno]
    refine ⟨?_, ?_, ?_⟩
    · intro i q hq hv _
      exact absurd hv (hno q (List.getElem?_mem hq))
    · rintro ⟨q, hq, hv⟩
      exact absurd hv (hno q hq)
    · simp only [true_iff]
      exact hno
  · have hlt : pre.length ≤ INT_MAX := by
      have : e.streams.length = pre.length + (post.length + 1) := by simp [hl]
      omega
    rw [hl, scanStreams_first pre p post 0 (-1) hpre hp, Nat.zero_add,
      intOfUnsigned_of_le _ hlt]
    have hat : (pre ++ p :: post)[pre.length]? = some p := by
      rw [List.getElem?_append_right (Nat.le_refl _)]
      simp
    have hbefore : ∀ (j : Nat) (q : AVCodecParameters), j < pre.length →
        (pre ++ p :: post)[j]? = some q → q.codec_type ≠ AVMediaType.video := by
      intro j q hj hq
      rw [List.getElem?_append_left hj] at hq
      exact hpre q (List.getElem?_mem hq)
    refine ⟨?_, ?_, ?_⟩
    · intro i q hq hv hmin
      rcases Nat.lt_trichotomy i pre.length with h | h | h
      · exact absurd hv (hbefore i q h hq)
      · rw [h]
      · exact absurd hp (hmin pre.length p h hat)
    · intro _
      exact ⟨pre.length, p, rfl, hat, hp, hbefore⟩
    · constructor
      · intro h
        omega
      · intro h
        exact absurd hp (h p (by simp))

/-- C1 at the table [audio, video, video]: the index selected is 1. -/
theorem initFFmpeg_selects_first_video_witness :
    (initFFmpeg VideoWidget.initial
      { open_input := 0, find_stream_info := 0,
        streams := [⟨AVMediaType.audio, 86018, 0, 0, 8⟩, ⟨AVMediaType.video, 27, 640, 480, 0⟩,
          ⟨AVMediaType.video, 27, 1920, 1080, 0⟩],
        find_decoder := fun _ => true, alloc_context3 := true, parameters_to_context := 0,
        open2 := 0, frame_alloc := true, sws_getContext := true }).state.videoStreamIndex
      = ((1 : Nat) : Int) :=
  (initFFmpeg_selects_first_video
      { open_input := 0, find_stream_info := 0,
        streams := [⟨AVMediaType.audio, 86018, 0, 0, 8⟩, ⟨AVMediaType.video, 27, 640, 480, 0⟩,
          ⟨AVMediaType.video, 27, 1920, 1080, 0⟩],
        find_decoder := fun _ => true, alloc_context3 := true, parameters_to_context := 0,
        open2 := 0, frame_alloc := true, sws_getContext := true }
      rfl (by decide) (by decide)).1 1 ⟨AVMediaType.video, 27, 640, 480, 0⟩ rfl rfl
    (by
      intro j q hj hq
      have hj0 : j = 0 := by omega
      subst hj0
      simp at hq
      subst hq
      decide)

/-- C2. Over a container with no video stream, `initFFmpeg` returns with `videoStreamIndex` -1
and a null `codecContext`; the constructor then arms the timer, and whatever the later ticks
read (packets carrying non-negative stream indices), every tick returns, no tick makes a call
that takes the decoding context or hands a null handle to a library call, nothing is presented,
and the label stays as it was. -/
theorem no_video_stream_ticks_inert (e : InitEnv) (ticks : List TickEnv)
    (hopen : e.open_input = 0) (hprobe : 0 ≤ e.find_stream_info)
    (hnov : ∀ p ∈ e.streams, p.codec_type ≠ AVMediaType.video)
    (hidx : ∀ t ∈ ticks, 0 ≤ t.stream_index) :
    (initFFmpeg VideoWidget.initial e).fault = none ∧
    (initFFmpeg VideoWidget.initial e).state.videoStreamIndex = -1 ∧
    (initFFmpeg VideoWidget.initial e).state.codecContext = none ∧
    (VideoWidget.construct e).fault = none ∧
    (VideoWidget.construct e).state.timer = some 30 ∧
    (runTicks (VideoWidget.construct e).state ticks).fault = none ∧
    (∀ ev ∈ (runTicks (VideoWidget.construct e).state ticks).trace,
      ev.usesDecoder = false ∧ ev.passesNull = false) ∧
    presented (runTicks (VideoWidget.construct e).state ticks).trace = [] ∧
    (runTicks (VideoWidget.construct e).state ticks).state.label =
      (VideoWidget.construct e).state.label ∧
    (runTicks (VideoWidget.construct e).state ticks).state.codecContext = none := by
  have hinit := initFFmpeg_no_video e hopen hprobe hnov
  have hcons : VideoWidget.construct e =
      ⟨{ VideoWidget.initial with formatContext := some ⟨e.streams⟩, timer := some 30 },
        [.av_register_all, .avformat_network_init, .avformat_open_input,
          .avformat_find_stream_info, .scan_streams e.streams.length,
          .cerr .couldNotFindVideoStream, .timer_start 30], none⟩ := by
    unfold VideoWidget.construct
    rw [hinit]
    rfl
  have hfc : (VideoWidget.construct e).state.formatContext = some ⟨e.streams⟩ := by
    rw [hcons]
  have hv : (VideoWidget.construct e).state.videoStreamIndex = -1 := by
    rw [hcons]
    rfl
  have hcc : (VideoWidget.construct e).state.codecContext = none := by
    rw [hcons]
    rfl
  have hrun := runTicks_unselected (VideoWidget.construct e).state ticks ⟨e.streams⟩ hfc hv hidx
  refine ⟨by rw [hinit], by rw [hinit]; rfl, by rw [hinit]; rfl, by rw [hcons], by rw [hcons],
    hrun.1, ?_, ?_, by rw [hrun.2.1], ?_⟩
  · intro ev hev
    rcases hrun.2.2 ev hev with h | h | h <;> rw [h] <;> exact ⟨rfl, rfl⟩
  · unfold presented
    rw [List.filterMap_eq_nil_iff]
    intro ev hev
    rcases hrun.2.2 ev hev with h | h | h <;> rw [h]
  · rw [hrun.2.1, hcc]

/-- C3. A tick whose packet read succeeds with a stream index other than `videoStreamIndex`
does not call `avcodec_send_packet`, makes no receive, sizing or conversion call, presents
nothing, and leaves the label as it was. -/
theorem updateFrame_other_stream_inert (s : VideoWidget) (e : TickEnv)
    (hread : 0 ≤ e.read_frame) (hidx : e.stream_index ≠ s.videoStreamIndex) :
    (∀ h : Bool, Event.avcodec_send_packet h ∉ (updateFrame s e).trace) ∧
    (∀ ev ∈ (updateFrame s e).trace, ev.usesDecoder = false) ∧
    presented (updateFrame s e).trace = [] ∧
    (updateFrame s e).state.label = s.label := by
  unfold updateFrame
  cases hf : s.formatContext <;> simp [hread, hidx, presented, Event.usesDecoder]

/-- C3 at a running viewer that selected stream 1 and reads an audio packet of stream 0. -/
theorem updateFrame_other_stream_inert_witness :
    (updateFrame
      { label := none, timer := some 30, formatContext := some ⟨[]⟩,
        codecContext := some ⟨640, 480, 0, true⟩, frame := some ⟨none⟩,
        swsCtx := some ⟨640, 480, 0⟩, videoStreamIndex := 1 }
      ⟨0, 0, 0, 0, 7⟩).trace = [.av_init_packet, .av_read_frame true, .av_packet_unref] ∧
    (updateFrame
      { label := none, timer := some 30, formatContext := some ⟨[]⟩,
        codecContext := some ⟨640, 480, 0, true⟩, frame := some ⟨none⟩,
        swsCtx := some ⟨640, 480, 0⟩, videoStreamIndex := 1 }
      ⟨0, 0, 0, 0, 7⟩).state.label = none :=
  ⟨by decide,
   (updateFrame_other_stream_inert
      { label := none, timer := some 30, formatContext := some ⟨[]⟩,
        codecContext := some ⟨640, 480, 0, true⟩, frame := some ⟨none⟩,
        swsCtx := some ⟨640, 480, 0⟩, videoStreamIndex := 1 }
      ⟨0, 0, 0, 0, 7⟩ (by decide) (by decide)).2.2.2⟩

/-- C4. A tick whose video packet is accepted and whose receive returns a negative value writes
nothing to `std::cerr`, makes no sizing, conversion or present call, and leaves the label as it
was. -/
theorem updateFrame_not_ready_silent (s : VideoWidget) (e : TickEnv)
    (hread : 0 ≤ e.read_frame) (hidx : e.stream_index = s.videoStreamIndex)
    (hsend : 0 ≤ e.send_packet) (hrecv : e.receive_frame < 0) :
    logged (updateFrame s e).trace = [] ∧
    (∀ ev ∈ (updateFrame s e).trace, ∀ (w h : Int) (b : Bool) (img : QImage),
      ev ≠ .avpicture_get_size w h ∧ ev ≠ .avpicture_fill w h ∧ ev ≠ .sws_scale b w h ∧
      ev ≠ .setPixmap img) ∧
    presented (updateFrame s e).trace = [] ∧
    (updateFrame s e).state.label = s.label := by
  have hr : ¬ 0 ≤ e.receive_frame := not_le.mpr hrecv
  unfold updateFrame
  cases hf : s.formatContext <;> cases hc : s.codecContext <;> cases hfr : s.frame <;>
    simp [hread, hidx, hsend, hr, presented, logged]

/-- C4 at a running viewer whose decoder accepts the packet and answers EAGAIN (-11). -/
theorem updateFrame_not_ready_silent_witness :
    (updateFrame
      { label := some ⟨640, 480, 1920, some 3⟩, timer := some 30, formatContext := some ⟨[]⟩,
        codecContext := some ⟨640, 480, 0, true⟩, frame := some ⟨some 3⟩,
        swsCtx := some ⟨640, 480, 0⟩, videoStreamIndex := 0 }
      ⟨0, 0, 0, -11, 4⟩).trace =
      [.av_init_packet, .av_read_frame true, .avcodec_send_packet true,
        .avcodec_receive_frame true true, .av_packet_unref] ∧
    (updateFrame
      { label := some ⟨640, 480, 1920, some 3⟩, timer := some 30, formatContext := some ⟨[]⟩,
        codecContext := some ⟨640, 480, 0, true⟩, frame := some ⟨some 3⟩,
        swsCtx := some ⟨640, 480, 0⟩, videoStreamIndex := 0 }
      ⟨0, 0, 0, -11, 4⟩).state.label = some ⟨640, 480, 1920, some 3⟩ :=
  ⟨by decide,
   (updateFrame_not_ready_silent
      { label := some ⟨640, 480, 1920, some 3⟩, timer := some 30, formatContext := some ⟨[]⟩,
        codecContext := some ⟨640, 480, 0, true⟩, frame := some ⟨some 3⟩,
        swsCtx := some ⟨640, 480, 0⟩, videoStreamIndex := 0 }
      ⟨0, 0, 0, -11, 4⟩ (by decide) (by decide) (by decide) (by decide)).2.2.2⟩

/-- C5. In a running viewer one tick calls `setPixmap` exactly once when the read succeeds, the
packet is of the selected stream, the submission succeeds and a picture is received, and not at
all otherwise; an image it presents has the width and height of the decoding context. -/
theorem updateFrame_presents_once (s : VideoWidget) (e : TickEnv)
    (hrun : s.running = true) :
    (updateFrame s e).fault = none ∧
    (presented (updateFrame s e).trace).length =
      (if 0 ≤ e.read_frame ∧ e.stream_index = s.videoStreamIndex ∧ 0 ≤ e.send_packet ∧
          0 ≤ e.receive_frame then 1 else 0) ∧
    (updateFrame s e).state.codecContext = s.codecContext ∧
    (∀ img ∈ presented (updateFrame s e).trace, ∀ cc : AVCodecContext,
      s.codecContext = some cc → img.width = cc.width ∧ img.height = cc.height) := by
  unfold VideoWidget.running at hrun
  unfold updateFrame
  cases hf : s.formatContext <;> cases hc : s.codecContext <;> cases hfr : s.frame <;>
    cases hsw : s.swsCtx <;> simp [hf, hc, hfr, hsw] at hrun ⊢
  by_cases h1 : 0 ≤ e.read_frame <;> by_cases h2 : e.stream_index = s.videoStreamIndex <;>
    by_cases h3 : 0 ≤ e.send_packet <;> by_cases h4 : 0 ≤ e.receive_frame <;>
    simp [h1, h2, h3, h4, presented, hc, QImage.ofBuffer]

/-- C5 at a running 640x480 viewer: a tick that decodes a picture presents one 640x480 image. -/
theorem updateFrame_presents_once_witness :
    presented (updateFrame
      { label := none, timer := some 30, formatContext := some ⟨[]⟩,
        codecContext := some ⟨640, 480, 0, true⟩, frame := some ⟨none⟩,
        swsCtx := some ⟨640, 480, 0⟩, videoStreamIndex := 0 }
      ⟨0, 0, 0, 0, 7⟩).trace = [⟨640, 480, 1920, some 7⟩] ∧
    (presented (updateFrame
      { label := none, timer := some 30, formatContext := some ⟨[]⟩,
        codecContext := some ⟨640, 480, 0, true⟩, frame := some ⟨none⟩,
        swsCtx := some ⟨640, 480, 0⟩, videoStreamIndex := 0 }
      ⟨0, 0, 0, 0, 7⟩).trace).length =
      (if (0 : Int) ≤ 0 ∧ (0 : Int) = 0 ∧ (0 : Int) ≤ 0 ∧ (0 : Int) ≤ 0 then 1 else 0) :=
  ⟨by decide,
   (updateFrame_presents_once
      { label := none, timer := some 30, formatContext := some ⟨[]⟩,
        codecContext := some ⟨640, 480, 0, true⟩, frame := some ⟨none⟩,
        swsCtx := some ⟨640, 480, 0⟩, videoStreamIndex := 0 }
      ⟨0, 0, 0, 0, 7⟩ (by decide)).2.1⟩

/-- C10. A tick of a running viewer returns, and on every path on which a tick returns: the
packet is unreferenced exactly once if the read succeeded and not at all if it failed; the RGB
frame wrapper and the RGB buffer are each allocated at most once and freed as often as
allocated, so none is live at the end; and whenever an image is presented, the frees of the
buffer, of the wrapper and of the packet all come after the present call and none before it. -/
theorem updateFrame_releases_per_tick (s : VideoWidget) (e : TickEnv)
    (hret : s.running = true ∨ (updateFrame s e).fault = none) :
    (updateFrame s e).fault = none ∧
    (0 ≤ e.read_frame → freeCount (updateFrame s e).trace .packet = 1) ∧
    (e.read_frame < 0 → freeCount (updateFrame s e).trace .packet = 0) ∧
    allocCount (updateFrame s e).trace .rgbFrame ≤ 1 ∧
    freeCount (updateFrame s e).trace .rgbFrame = allocCount (updateFrame s e).trace .rgbFrame ∧
    allocCount (updateFrame s e).trace .buffer ≤ 1 ∧
    freeCount (updateFrame s e).trace .buffer = allocCount (updateFrame s e).trace .buffer ∧
    allocCount (updateFrame s e).trace .rgbFrame = (presented (updateFrame s e).trace).length ∧
    allocCount (updateFrame s e).trace .buffer = (presented (updateFrame s e).trace).length ∧
    liveAllocations (updateFrame s e).trace = 0 ∧
    (∀ img ∈ presented (updateFrame s e).trace, ∃ before after : List Event,
      (updateFrame s e).trace = before ++ Event.setPixmap img :: after ∧
      after = [.av_free .buffer, .av_frame_free .rgbFrame, .av_packet_unref] ∧
      (∀ ev ∈ before, ev.frees = none) ∧
      allocCount before .rgbFrame = 1 ∧ allocCount before .buffer = 1) := by
  have hfault : (updateFrame s e).fault = none := by
    rcases hret with hrun | h
    · exact updateFrame_running_returns s e hrun
    · exact h
  refine ⟨hfault, ?_⟩
  rcases updateFrame_trace_shape s e hfault with
    ⟨h1, ht⟩ | ⟨h1, ht⟩ | ⟨h1, ht⟩ | ⟨h1, ht⟩ | ⟨h1, cc, _, ht⟩
  · have h0 : ¬ 0 ≤ e.read_frame := not_le.mpr h1
    rw [ht]
    simp [h0, presented, freeCount, allocCount, liveAllocations, Event.frees, Event.allocates]
  · have h0 : ¬ e.read_frame < 0 := not_lt.mpr h1
    rw [ht]
    simp [h0, presented, freeCount, allocCount, liveAllocations, Event.frees, Event.allocates]
  · have h0 : ¬ e.read_frame < 0 := not_lt.mpr h1
    rw [ht]
    simp [h0, presented, freeCount, allocCount, liveAllocations, Event.frees, Event.allocates]
  · have h0 : ¬ e.read_frame < 0 := not_lt.mpr h1
    rw [ht]
    simp [h0, presented, freeCount, allocCount, liveAllocations, Event.frees, Event.allocates]
  · have h0 : ¬ e.read_frame < 0 := not_lt.mpr h1
    rw [ht]
    refine ⟨fun _ => by simp [freeCount, Event.frees], fun h => absurd h h0,
      by simp [allocCount, Event.allocates],
      by simp [freeCount, allocCount, Event.frees, Event.allocates],
      by simp [allocCount, Event.allocates],
      by simp [freeCount, allocCount, Event.frees, Event.allocates],
      by simp [allocCount, presented, Event.allocates],
      by simp [allocCount, presented, Event.allocates],
      by simp [liveAllocations, freeCount, allocCount, Event.frees, Event.allocates], ?_⟩
    intro img himg
    simp only [presented, List.filterMap_cons, List.filterMap_nil, List.mem_singleton] at himg
    subst himg
    refine ⟨[.av_init_packet, .av_read_frame true, .avcodec_send_packet true,
        .avcodec_receive_frame true true, .av_frame_alloc .rgbFrame,
        .avpicture_get_size cc.width cc.height,
        .av_malloc (avpicture_get_size cc.width cc.height),
        .avpicture_fill cc.width cc.height,
        .sws_scale true cc.height (rgb24Linesize cc.width)], _, rfl, rfl, ?_, ?_, ?_⟩
    · intro ev hev
      simp only [List.mem_cons, List.mem_singleton, List.not_mem_nil, or_false] at hev
      rcases hev with h | h | h | h | h | h | h | h | h <;> rw [h] <;> rfl
    · simp [allocCount, Event.allocates]
    · simp [allocCount, Event.allocates]

/-- C7. Starting from the constructor state, over a stream table that fits a C `int` index,
`initFFmpeg` returns.  If step `k` is the first step that fails, exactly the one line of `k` is
written to `std::cerr`, the steps executed are exactly those up to and including `k`, and each
handle that `k` or a later step sets is null (`videoStreamIndex` is -1 if the selection did not
succeed).  If no step fails, nothing is written, all nine steps run, the four handles are
non-null and `videoStreamIndex` is not negative. -/
theorem initFFmpeg_first_failure (e : InitEnv) (hlen : e.streams.length ≤ INT_MAX) :
    (initFFmpeg VideoWidget.initial e).fault = none ∧
    (∀ k : InitStep, firstFailure e = some k →
      logged (initFFmpeg VideoWidget.initial e).trace = [k.diag] ∧
      (logged (initFFmpeg VideoWidget.initial e).trace).length = 1 ∧
      executedSteps (initFFmpeg VideoWidget.initial e).trace =
        InitStep.all.filter (fun j => j.index ≤ k.index) ∧
      (k.index ≤ InitStep.openStream.index →
        (initFFmpeg VideoWidget.initial e).state.formatContext = none) ∧
      (k.index ≤ InitStep.selectVideo.index →
        (initFFmpeg VideoWidget.initial e).state.videoStreamIndex = -1) ∧
      (k.index ≤ InitStep.allocContext.index →
        (initFFmpeg VideoWidget.initial e).state.codecContext = none) ∧
      (k.index ≤ InitStep.allocPicture.index →
        (initFFmpeg VideoWidget.initial e).state.frame = none) ∧
      (initFFmpeg VideoWidget.initial e).state.swsCtx = none) ∧
    (firstFailure e = none →
      logged (initFFmpeg VideoWidget.initial e).trace = [] ∧
      executedSteps (initFFmpeg VideoWidget.initial e).trace = InitStep.all ∧
      (initFFmpeg VideoWidget.initial e).state.formatContext.isSome = true ∧
      (initFFmpeg VideoWidget.initial e).state.codecContext.isSome = true ∧
      (initFFmpeg VideoWidget.initial e).state.frame.isSome = true ∧
      (initFFmpeg VideoWidget.initial e).state.swsCtx.isSome = true ∧
      (initFFmpeg VideoWidget.initial e).state.running = true ∧
      0 ≤ (initFFmpeg VideoWidget.initial e).state.videoStreamIndex) := by
  by_cases h1 : e.open_input = 0
  swap
  · have f1 : stepFails e .openStream = true := by simp [stepFails, h1]
    have hff : firstFailure e = some .openStream := by
      simp only [firstFailure, InitStep.all, List.find?, f1]
    rw [hff]
    simp [initFFmpeg, logged, executedSteps, InitStep.all, InitStep.ofEvent, InitStep.diag,
      InitStep.index, VideoWidget.initial, VideoWidget.running, h1]
  have f1 : stepFails e .openStream = false := by simp [stepFails, h1]
  by_cases h2 : e.find_stream_info < 0
  · have f2 : stepFails e .probe = true := by simp [stepFails, h2]
    have hff : firstFailure e = some .probe := by
      simp only [firstFailure, InitStep.all, List.find?, f1, f2]
    rw [hff]
    simp [initFFmpeg, logged, executedSteps, InitStep.all, InitStep.ofEvent, InitStep.diag,
      InitStep.index, VideoWidget.initial, VideoWidget.running, h1, h2]
  have f2 : stepFails e .probe = false := by simp [stepFails, h2]
  rcases scanStreams_select e.streams hlen with ⟨hall, hs⟩ | ⟨n, p, hall, hfind, hs, hcp⟩
  · have f3 : stepFails e .selectVideo = true := hall
    have hff : firstFailure e = some .selectVideo := by
      simp only [firstFailure, InitStep.all, List.find?, f1, f2, f3]
    rw [hff]
    simp [initFFmpeg, logged, executedSteps, InitStep.all, InitStep.ofEvent, InitStep.diag,
      InitStep.index, VideoWidget.initial, VideoWidget.running, h1, h2, hs]
  have f3 : stepFails e .selectVideo = false := hall
  have hn : ¬ ((n : Int) = -1) := by omega
  have hn0 : (0 : Int) ≤ (n : Int) := by omega
  by_cases h4 : e.find_decoder p.codec_id = true
  swap
  · have f4 : stepFails e .findDecoder = true := by simp [stepFails, hfind, h4]
    have hff : firstFailure e = some .findDecoder := by
      simp only [firstFailure, InitStep.all, List.find?, f1, f2, f3, f4]
    rw [hff]
    simp [initFFmpeg, logged, executedSteps, InitStep.all, InitStep.ofEvent, InitStep.diag,
      InitStep.index, VideoWidget.initial, VideoWidget.running, h1, h2, hs, hcp, hn, h4]
  have f4 : stepFails e .findDecoder = false := by simp [stepFails, hfind, h4]
  by_cases h5 : e.alloc_context3 = true
  swap
  · have f5 : stepFails e .allocContext = true := by simp [stepFails, h5]
    have hff : firstFailure e = some .allocContext := by
      simp only [firstFailure, InitStep.all, List.find?, f1, f2, f3, f4, f5]
    rw [hff]
    simp [initFFmpeg, logged, executedSteps, InitStep.all, InitStep.ofEvent, InitStep.diag,
      InitStep.index, VideoWidget.initial, VideoWidget.running, h1, h2, hs, hcp, hn, h4, h5]
  have f5 : stepFails e .allocContext = false := by simp [stepFails, h5]
  by_cases h6 : e.parameters_to_context < 0
  · have f6 : stepFails e .copyParameters = true := by simp [stepFails, h6]
    have hff : firstFailure e = some .copyParameters := by
      simp only [firstFailure, InitStep.all, List.find?, f1, f2, f3, f4, f5, f6]
    rw [hff]
    simp [initFFmpeg, logged, executedSteps, InitStep.all, InitStep.ofEvent, InitStep.diag,
      InitStep.index, VideoWidget.initial, VideoWidget.running, h1, h2, hs, hcp, hn, h4, h5, h6]
  have f6 : stepFails e .copyParameters = false := by simp [stepFails, h6]
  by_cases h7 : e.open2 < 0
  · have f7 : stepFails e .openCodec = true := by simp [stepFails, h7]
    have hff : firstFailure e = some .openCodec := by
      simp only [firstFailure, InitStep.all, List.find?, f1, f2, f3, f4, f5, f6, f7]
    rw [hff]
    simp [initFFmpeg, logged, executedSteps, InitStep.all, InitStep.ofEvent, InitStep.diag,
      InitStep.index, VideoWidget.initial, VideoWidget.running, h1, h2, hs, hcp, hn, h4, h5, h6, h7]
  have f7 : stepFails e .openCodec = false := by simp [stepFails, h7]
  by_cases h8 : e.frame_alloc = true
  swap
  · have f8 : stepFails e .allocPicture = true := by simp [stepFails, h8]
    have hff : firstFailure e = some .allocPicture := by
      simp only [firstFailure, InitStep.all, List.find?, f1, f2, f3, f4, f5, f6, f7, f8]
    rw [hff]
    simp [initFFmpeg, logged, executedSteps, InitStep.all, InitStep.ofEvent, InitStep.diag,
      InitStep.index, VideoWidget.initial, VideoWidget.running, h1, h2, hs, hcp, hn, h4, h5, h6, h7, h8]
  have f8 : stepFails e .allocPicture = false := by simp [stepFails, h8]
  by_cases h9 : e.sws_getContext = true
  swap
  · have f9 : stepFails e .createConversion = true := by simp [stepFails, h9]
    have hff : firstFailure e = some .createConversion := by
      simp only [firstFailure, InitStep.all, List.find?, f1, f2, f3, f4, f5, f6, f7, f8, f9]
    rw [hff]
    simp [initFFmpeg, logged, executedSteps, InitStep.all, InitStep.ofEvent, InitStep.diag,
      InitStep.index, VideoWidget.initial, VideoWidget.running, h1, h2, hs, hcp, hn, h4, h5, h6, h7, h8, h9]
  have f9 : stepFails e .createConversion = false := by simp [stepFails, h9]
  have hff : firstFailure e = none := by
    simp only [firstFailure, InitStep.all, List.find?, f1, f2, f3, f4, f5, f6, f7, f8, f9]
  rw [hff]
  simp [initFFmpeg, logged, executedSteps, InitStep.all, InitStep.ofEvent, InitStep.diag,
      InitStep.index, VideoWidget.initial, VideoWidget.running, h1, h2, hs, hcp, hn, hn0, h4, h5, h6, h7, h8, h9]

/-- C2 at a container with one audio stream, followed by a tick that reads an audio packet and
a tick whose read fails. -/
theorem no_video_stream_ticks_inert_witness :
    (initFFmpeg VideoWidget.initial envNoVideo).state.videoStreamIndex = -1 ∧
    (runTicks (VideoWidget.construct envNoVideo).state [tickAudio, tickEof]).trace =
      [.av_init_packet, .av_read_frame true, .av_packet_unref,
        .av_init_packet, .av_read_frame true] ∧
    (runTicks (VideoWidget.construct envNoVideo).state [tickAudio, tickEof]).fault = none :=
  ⟨(no_video_stream_ticks_inert envNoVideo [tickAudio, tickEof] rfl (by decide) (by decide)
      (by decide)).2.1,
   by decide,
   (no_video_stream_ticks_inert envNoVideo [tickAudio, tickEof] rfl (by decide) (by decide)
      (by decide)).2.2.2.2.2.1⟩

/-- C7 at library answers under which `avcodec_open2` is the first step to fail. -/
theorem initFFmpeg_first_failure_witness :
    firstFailure envOpenCodecFails = some InitStep.openCodec ∧
    logged (initFFmpeg VideoWidget.initial envOpenCodecFails).trace = [Diag.couldNotOpenCodec] ∧
    (initFFmpeg VideoWidget.initial envOpenCodecFails).state.swsCtx = none :=
  ⟨by decide,
   ((initFFmpeg_first_failure envOpenCodecFails (by decide)).2.1 InitStep.openCodec
      (by decide)).1,
   ((initFFmpeg_first_failure envOpenCodecFails (by decide)).2.1 InitStep.openCodec
      (by decide)).2.2.2.2.2.2.2⟩

/-- C10 at the viewer built from answers under which every step succeeds, on a tick that decodes
and presents a picture. -/
theorem updateFrame_releases_per_tick_witness :
    (VideoWidget.construct envAllSucceed).state.running = true ∧
    (updateFrame (VideoWidget.construct envAllSucceed).state tickPicture).fault = none ∧
    freeCount (updateFrame (VideoWidget.construct envAllSucceed).state tickPicture).trace
      .packet = 1 ∧
    liveAllocations
      (updateFrame (VideoWidget.construct envAllSucceed).state tickPicture).trace = 0 :=
  ⟨by decide,
   (updateFrame_releases_per_tick (VideoWidget.construct envAllSucceed).state tickPicture
      (Or.inl (by decide))).1,
   (updateFrame_releases_per_tick (VideoWidget.construct envAllSucceed).state tickPicture
      (Or.inl (by decide))).2.1 (by decide),
   (updateFrame_releases_per_tick (VideoWidget.construct envAllSucceed).state tickPicture
      (Or.inl (by decide))).2.2.2.2.2.2.2.2.2.1⟩

/-- C9. `cleanupFFmpeg` issues one release call for each non-null handle among the
decoded-picture buffer, the decoding context, the stream handle and the conversion context, in
that order, and no other call; no handle is released twice and a null handle is not released. -/
theorem cleanupFFmpeg_releases_nonnull (s : VideoWidget) :
    (cleanupFFmpeg s).trace =
      ([(s.frame.isSome, Event.av_frame_free Obj.frame),
        (s.codecContext.isSome, Event.avcodec_free_context),
        (s.formatContext.isSome, Event.avformat_close_input),
        (s.swsCtx.isSome, Event.sws_freeContext)].filter fun x => x.1).map (fun x => x.2) ∧
    releases (cleanupFFmpeg s).trace =
      ([(s.frame.isSome, Obj.frame), (s.codecContext.isSome, Obj.codecContext),
        (s.formatContext.isSome, Obj.formatContext),
        (s.swsCtx.isSome, Obj.swsCtx)].filter fun x => x.1).map (fun x => x.2) ∧
    (releases (cleanupFFmpeg s).trace).Nodup ∧
    (releases (cleanupFFmpeg s).trace).length = (cleanupFFmpeg s).trace.length ∧
    (cleanupFFmpeg s).fault = none := by
  unfold cleanupFFmpeg
  cases s.frame <;> cases s.codecContext <;> cases s.formatContext <;> cases s.swsCtx <;>
    simp [releases, Event.frees]

/-- C8, the defect. Each way `initFFmpeg` can leave a handle null is followed by an armed timer
and by a tick that hands that null handle to a library call: `av_read_frame` after a failed
open, `avcodec_send_packet` when no decoder was found, `avcodec_receive_frame` when the picture
buffer was not allocated, `sws_scale` when the conversion context was not created. -/
theorem broken_viewer_tick_passes_null_handle :
    ((VideoWidget.construct envOpenFails).state.formatContext = none ∧
      (VideoWidget.construct envOpenFails).state.timer = some 30 ∧
      (updateFrame (VideoWidget.construct envOpenFails).state tickPicture).trace =
        [.av_init_packet, .av_read_frame false] ∧
      (updateFrame (VideoWidget.construct envOpenFails).state tickPicture).fault =
        some Fault.nullHandle) ∧
    ((VideoWidget.construct envNoDecoder).state.codecContext = none ∧
      (VideoWidget.construct envNoDecoder).state.timer = some 30 ∧
      (updateFrame (VideoWidget.construct envNoDecoder).state tickPicture).trace =
        [.av_init_packet, .av_read_frame true, .avcodec_send_packet false] ∧
      (updateFrame (VideoWidget.construct envNoDecoder).state tickPicture).fault =
        some Fault.nullHandle) ∧
    ((VideoWidget.construct envNoFrame).state.frame = none ∧
      (VideoWidget.construct envNoFrame).state.timer = some 30 ∧
      (updateFrame (VideoWidget.construct envNoFrame).state tickPicture).trace =
        [.av_init_packet, .av_read_frame true, .avcodec_send_packet true,
          .avcodec_receive_frame true false] ∧
      (updateFrame (VideoWidget.construct envNoFrame).state tickPicture).fault =
        some Fault.nullHandle) ∧
    ((VideoWidget.construct envNoSws).state.swsCtx = none ∧
      (VideoWidget.construct envNoSws).state.timer = some 30 ∧
      (∃ ev ∈ (updateFrame (VideoWidget.construct envNoSws).state tickPicture).trace,
        ev = Event.sws_scale false 480 2562 ∧ ev.passesNull = true) ∧
      (updateFrame (VideoWidget.construct envNoSws).state tickPicture).fault =
        some Fault.nullHandle) := by
  refine ⟨⟨by decide, by decide, by decide, by decide⟩, ⟨by decide, by decide, by decide, by decide⟩,
    ⟨by decide, by decide, by decide, by decide⟩, ⟨by decide, by decide, ?_, by decide⟩⟩
  exact ⟨Event.sws_scale false 480 2562, by decide, rfl, rfl⟩

/-- The scanline length Qt assumes equals the one FFmpeg wrote exactly when the width is a
multiple of four. -/
theorem qimageBytesPerLine_eq_iff (w : Int) :
    qimageBytesPerLine w = rgb24Linesize w ↔ w % 4 = 0 := by
  unfold qimageBytesPerLine rgb24Linesize
  omega

/-- C6, the defect. At decoder size 854x480 the tick allocates 1229760 bytes and converts into
rows 2562 bytes apart, while the image it presents reads rows 2564 bytes apart: from the second
row on the image reads other bytes than the conversion wrote, and its last row ends at offset
1230718, past the end of the buffer. -/
theorem presented_image_stride_mismatch :
    (VideoWidget.construct envAllSucceed).state.running = true ∧
    (VideoWidget.construct envAllSucceed).state.codecContext = some ⟨854, 480, 0, true⟩ ∧
    (updateFrame (VideoWidget.construct envAllSucceed).state tickPicture).trace =
      [.av_init_packet, .av_read_frame true, .avcodec_send_packet true,
        .avcodec_receive_frame true true, .av_frame_alloc .rgbFrame,
        .avpicture_get_size 854 480, .av_malloc 1229760, .avpicture_fill 854 480,
        .sws_scale true 480 2562, .setPixmap ⟨854, 480, 2564, some 7⟩,
        .av_free .buffer, .av_frame_free .rgbFrame, .av_packet_unref] ∧
    rgb24Linesize 854 = 2562 ∧
    qimageBytesPerLine 854 = 2564 ∧
    writtenRowEnd 854 479 = 1229760 ∧
    QImage.rowEnd ⟨854, 480, 2564, some 7⟩ 479 = 1230718 ∧
    avpicture_get_size 854 480 < QImage.rowEnd ⟨854, 480, 2564, some 7⟩ 479 := by
  refine ⟨by decide, by decide, by decide, by decide, by decide, by decide, by decide, by decide⟩

end VideoViewer
